import Mathlib

/-!
Verification of the UI utility functions of the `mu` music-player front-end,
shallowly embedded from `src/lib/utils/index.ts`:

* `clickOutside` — the outside-interaction binder returned to the caller,
  with its `update`/`destroy` lifecycle and the document-level `onClick`
  listener it registers;
* `isElementVisible` — the pure visibility predicate over an element's
  geometry/style snapshot;
* `formatTime` — the seconds-to-clock-string formatter, which delegates to
  `new Date(seconds * 1000).toISOString()` and slices the result.

DOM nodes are modelled by their root-to-node paths, so that
`element.contains(target)` is path-prefix testing (a node contains itself,
as in the DOM `contains` contract).  JavaScript numbers are modelled as an
inductive with a NaN sentinel, signed infinities and exact rationals; the
ECMAScript `Date`/`toISOString` machinery the formatter calls into is
modelled after the standard: the time value is the millisecond argument
truncated toward zero, clipped to ±8.64e15 (outside that range the date is
invalid and `toISOString` throws, modelled as `none`), and the ISO string
uses the proleptic Gregorian calendar with a 4-digit year for years
0–9999 and the expanded `±YYYYYY` form otherwise.
-/

namespace Mu

/-- A DOM node, identified by its path of child indices from the root. -/
abbrev DomNode := List ℕ

/-- `element.contains(target)`: `target` is an inclusive descendant of
`element`, i.e. the path of `element` is a prefix of the path of `target`. -/
def nodeContains : DomNode → DomNode → Bool
  | [], _ => true
  | _ :: _, [] => false
  | a :: as, b :: bs => a == b && nodeContains as bs

/-- The state owned by one `clickOutside(element, callbackFunction)` call:
the captured element, the current (replaceable) callback — identified
abstractly by a number — and whether the document-level `onClick` listener
is currently registered. -/
structure ClickOutsideBinder where
  element : DomNode
  callback : ℕ
  listenerRegistered : Bool
deriving DecidableEq

/-- `clickOutside(element, callbackFunction)`: registers the listener on
`document.body` and returns the binder. -/
def clickOutside (element : DomNode) (callbackFunction : ℕ) : ClickOutsideBinder :=
  { element := element, callback := callbackFunction, listenerRegistered := true }

/-- The body of the `onClick` closure: on a click whose target is not
contained in the bound element, the current callback is invoked (returned
as `some id`); otherwise nothing is invoked. -/
def onClick (b : ClickOutsideBinder) (target : DomNode) : Option ℕ :=
  if nodeContains b.element target then none else some b.callback

/-- Dispatching a document click against the binder: the listener body only
runs while the listener is registered. -/
def dispatchClick (b : ClickOutsideBinder) (target : DomNode) : Option ℕ :=
  if b.listenerRegistered then onClick b target else none

/-- `update(newCallbackFunction)`: swaps the callback captured by the
closure; the listener registration is untouched. -/
def update (b : ClickOutsideBinder) (newCallbackFunction : ℕ) : ClickOutsideBinder :=
  { b with callback := newCallbackFunction }

/-- `destroy()`: `document.body.removeEventListener('click', onClick)` — a
no-op when the listener is already removed. -/
def destroy (b : ClickOutsideBinder) : ClickOutsideBinder :=
  { b with listenerRegistered := false }

/-- A lifecycle operation performed on the binder after creation. -/
inductive BinderOp where
  | update (newCallbackFunction : ℕ)
  | destroy
  | click (target : DomNode)
deriving DecidableEq

/-- Effect of one lifecycle operation on the binder state (a click leaves
the state unchanged; its observable effect is given by `dispatchClick`). -/
def applyOp (b : ClickOutsideBinder) : BinderOp → ClickOutsideBinder
  | .update c => update b c
  | .destroy => destroy b
  | .click _ => b

/-- The binder state after a sequence of lifecycle operations. -/
def runOps (b : ClickOutsideBinder) (ops : List BinderOp) : ClickOutsideBinder :=
  ops.foldl applyOp b

/-- The callback set by the last `update` in `ops`, or `c` if there is none:
the reference model of "the newest callback". -/
def lastUpdateCb (c : ℕ) : List BinderOp → ℕ
  | [] => c
  | .update c2 :: rest => lastUpdateCb c2 rest
  | .destroy :: rest => lastUpdateCb c rest
  | .click _ :: rest => lastUpdateCb c rest

/-- `element.getBoundingClientRect()` snapshot. -/
structure Rect where
  top : ℚ
  left : ℚ
  bottom : ℚ
  right : ℚ
  width : ℚ
  height : ℚ
deriving DecidableEq

/-- `window.getComputedStyle(element)` snapshot (the fields the code reads). -/
structure ElementStyle where
  display : String
  visibility : String
  opacity : String
deriving DecidableEq

/-- The per-call snapshot of an `HTMLElement` that `isElementVisible`
reads: `offsetParent` (possibly null), the bounding rectangle and the
computed style. -/
structure HTMLElementModel where
  offsetParent : Option ℕ
  rect : Rect
  style : ElementStyle
deriving DecidableEq

/-- The window/document metrics the code reads. -/
structure WindowEnv where
  innerHeight : ℚ
  innerWidth : ℚ
  clientHeight : ℚ
  clientWidth : ℚ
deriving DecidableEq

/-- `window.innerHeight || document.documentElement.clientHeight`
(a numeric `||`: the left operand unless it is falsy, i.e. zero). -/
def viewportHeight (w : WindowEnv) : ℚ :=
  if w.innerHeight = 0 then w.clientHeight else w.innerHeight

/-- `window.innerWidth || document.documentElement.clientWidth`. -/
def viewportWidth (w : WindowEnv) : ℚ :=
  if w.innerWidth = 0 then w.clientWidth else w.innerWidth

/-- `isElementVisible(element)` from `src/lib/utils/index.ts`. -/
def isElementVisible (w : WindowEnv) (element : Option HTMLElementModel) : Bool :=
  match element with
  | none => false
  | some element =>
    let rect := element.rect
    let style := element.style
    let isInDOM := element.offsetParent.isSome
    let hasSize := decide (rect.width > 0) && decide (rect.height > 0)
    let isDisplayed := style.display != "none"
    let isVisible := style.visibility != "hidden" && style.opacity != "0"
    let isInViewport :=
      decide (rect.top ≥ 0) && decide (rect.left ≥ 0) &&
      decide (rect.bottom ≤ viewportHeight w) && decide (rect.right ≤ viewportWidth w)
    isInDOM && hasSize && isDisplayed && isVisible && isInViewport

/-- A JavaScript number: the NaN sentinel, the signed infinities, or a
finite value (idealised as an exact rational; no claim here depends on
binary floating-point rounding). -/
inductive JSNum where
  | nan
  | posInf
  | negInf
  | finite (q : ℚ)
deriving DecidableEq

/-- `isNaN(x)`. -/
def JSNum.isNaNb : JSNum → Bool
  | .nan => true
  | _ => false

/-- `x * 1000` (multiplication by the finite constant 1000). -/
def JSNum.mul1000 : JSNum → JSNum
  | .nan => .nan
  | .posInf => .posInf
  | .negInf => .negInf
  | .finite q => .finite (q * 1000)

/-- `x >= 60 * 60` (any comparison with NaN is false). -/
def JSNum.ge3600 : JSNum → Bool
  | .nan => false
  | .posInf => true
  | .negInf => false
  | .finite q => decide ((60 * 60 : ℚ) ≤ q)

/-- ECMAScript `ToIntegerOrInfinity` on a finite value: truncation toward
zero (`num.tdiv den` since the denominator is positive). -/
def jsTrunc (q : ℚ) : ℤ :=
  q.num.tdiv (q.den : ℤ)

/-- The internal time value of `new Date(ms)`: per `TimeClip`, a finite
argument within ±8.64e15 is truncated toward zero; anything else
(NaN, infinite, or out of range) yields an invalid date (`none`). -/
def timeValue : JSNum → Option ℤ
  | .nan => none
  | .posInf => none
  | .negInf => none
  | .finite t =>
    if -8640000000000000 ≤ t ∧ t ≤ 8640000000000000 then some (jsTrunc t) else none

/-- The decimal digit character for `n < 10`. -/
def digitChar (n : ℕ) : Char := Char.ofNat (48 + n)

/-- Fuel-driven most-significant-first decimal digits. -/
def decDigitsAux : ℕ → ℕ → List Char
  | 0, _ => []
  | fuel + 1, n =>
    if n < 10 then [digitChar n] else decDigitsAux fuel (n / 10) ++ [digitChar (n % 10)]

/-- Decimal digits of `n`, most significant first (exact for every
`n < 10^24`; every number rendered by the ISO formatter is below 10^17). -/
def decDigits (n : ℕ) : List Char := decDigitsAux 24 n

/-- Left-pad a digit string with `'0'` to width `w`. -/
def padZeros (w : ℕ) (l : List Char) : List Char :=
  List.replicate (w - l.length) '0' ++ l

/-- A 2-digit zero-padded decimal field. -/
def pad2 (n : ℕ) : List Char := padZeros 2 (decDigits n)

/-- A 3-digit zero-padded decimal field (milliseconds). -/
def pad3 (n : ℕ) : List Char := padZeros 3 (decDigits n)

/-- The 400-year era containing day `z0` (days counted from 1970-01-01,
rebased to 0000-03-01 by the 719468-day offset). -/
def civilEra (z0 : ℤ) : ℤ := (z0 + 719468) / 146097

/-- Day-of-era: the day index within the 400-year era, in `[0, 146096]`. -/
def civilDoe (z0 : ℤ) : ℕ := ((z0 + 719468) % 146097).toNat

/-- Year-of-era in `[0, 399]` of a day-of-era. -/
def civilYoe (doe : ℕ) : ℕ :=
  (doe - doe / 1460 + doe / 36524 - doe / 146096) / 365

/-- Day-of-year (March-based) of a day-of-era. -/
def civilDoy (doe : ℕ) : ℕ :=
  doe - (365 * civilYoe doe + civilYoe doe / 4 - civilYoe doe / 100)

/-- March-based month index `0 … 11` of a day-of-era. -/
def civilMp (doe : ℕ) : ℕ := (5 * civilDoy doe + 2) / 153

/-- Day of month `1 … 31` of a day-of-era. -/
def civilD (doe : ℕ) : ℕ := civilDoy doe - (153 * civilMp doe + 2) / 5 + 1

/-- Civil month `1 … 12` of a day-of-era. -/
def civilM (doe : ℕ) : ℕ :=
  if civilMp doe < 10 then civilMp doe + 3 else civilMp doe - 9

/-- Civil year of day `z0`. -/
def civilY (z0 : ℤ) : ℤ :=
  (civilYoe (civilDoe z0) : ℤ) + civilEra z0 * 400 +
    (if civilM (civilDoe z0) ≤ 2 then 1 else 0)

/-- Proleptic-Gregorian date (year, month, day) of a day number counted
from 1970-01-01, as computed by ECMAScript's date functions (the standard
civil-from-days computation). -/
def civilFromDays (z0 : ℤ) : ℤ × ℕ × ℕ :=
  (civilY z0, civilM (civilDoe z0), civilD (civilDoe z0))

/-- The year field of the ISO string: 4 digits for years 0–9999, else the
expanded `±YYYYYY` form (ECMAScript Date Time String Format). -/
def yearChars (y : ℤ) : List Char :=
  if 0 ≤ y ∧ y ≤ 9999 then padZeros 4 (decDigits y.toNat)
  else (if y < 0 then ['-'] else ['+']) ++ padZeros 6 (decDigits y.natAbs)

/-- The characters of `toISOString()` of a valid time value `ms`:
`YYYY-MM-DDTHH:MM:SS.sssZ` (with the year field possibly expanded). -/
def isoChars (ms : ℤ) : List Char :=
  let dayMs := (ms % 86400000).toNat
  let c := civilFromDays (ms / 86400000)
  yearChars c.1 ++ '-' :: pad2 c.2.1 ++ '-' :: pad2 c.2.2 ++
    'T' :: pad2 (dayMs / 3600000) ++ ':' :: pad2 (dayMs / 60000 % 60) ++
    ':' :: pad2 (dayMs / 1000 % 60) ++ '.' :: pad3 (dayMs % 1000) ++ ['Z']

/-- `date.toISOString()`: throws a `RangeError` (modelled `none`) on an
invalid date, otherwise yields the ISO string. -/
def toISOStringJS : Option ℤ → Option String
  | none => none
  | some ms => some (String.mk (isoChars ms))

/-- `String.prototype.substring(a, b)` on the index ranges the code uses
(`0 ≤ a ≤ b ≤ length`): the characters at positions `a … b-1`. -/
def substringChars (l : List Char) (a b : ℕ) : List Char :=
  (l.drop a).take (b - a)

/-- `s.substring(a, b)` as a string. -/
def jsSubstringStr (s : String) (a b : ℕ) : String :=
  String.mk (substringChars s.data a b)

/-- `formatTime(seconds)` from `src/lib/utils/index.ts`.  A thrown
exception (from `toISOString` on an invalid date) is modelled as `none`. -/
def formatTime (seconds : JSNum) : Option String :=
  if seconds.isNaNb then some "--:--"
  else if seconds.ge3600 then
    (toISOStringJS (timeValue seconds.mul1000)).map (fun t => jsSubstringStr t 11 16)
  else
    (toISOStringJS (timeValue seconds.mul1000)).map (fun t => jsSubstringStr t 14 19)

end Mu

namespace Mu

theorem nodeContains_self (l : DomNode) : nodeContains l l = true := by
  induction l with
  | nil => rfl
  | cons a as ih => simp [nodeContains, ih]

theorem runOps_cons (b : ClickOutsideBinder) (op : BinderOp) (ops : List BinderOp) :
    runOps b (op :: ops) = runOps (applyOp b op) ops := rfl

theorem applyOp_element (b : ClickOutsideBinder) (op : BinderOp) :
    (applyOp b op).element = b.element := by
  cases op <;> rfl

theorem runOps_element (ops : List BinderOp) :
    ∀ b : ClickOutsideBinder, (runOps b ops).element = b.element := by
  induction ops with
  | nil => intro b; rfl
  | cons op rest ih =>
    intro b
    rw [runOps_cons, ih, applyOp_element]

theorem runOps_registered_of_no_destroy (ops : List BinderOp) :
    ∀ b : ClickOutsideBinder, BinderOp.destroy ∉ ops →
      (runOps b ops).listenerRegistered = b.listenerRegistered := by
  induction ops with
  | nil => intro b _; rfl
  | cons op rest ih =>
    intro b h
    rw [runOps_cons, ih _ (fun hm => h (List.mem_cons_of_mem _ hm))]
    cases op with
    | update c => rfl
    | destroy => exact absurd (List.mem_cons_self _ _) h
    | click t => rfl

theorem runOps_registered_false (ops : List BinderOp) :
    ∀ b : ClickOutsideBinder, b.listenerRegistered = false →
      (runOps b ops).listenerRegistered = false := by
  induction ops with
  | nil => intro b h; exact h
  | cons op rest ih =>
    intro b h
    rw [runOps_cons]
    apply ih
    cases op with
    | update c => exact h
    | destroy => rfl
    | click t => exact h

theorem runOps_registered_of_destroy (ops : List BinderOp) :
    ∀ b : ClickOutsideBinder, BinderOp.destroy ∈ ops →
      (runOps b ops).listenerRegistered = false := by
  induction ops with
  | nil => intro b h; cases h
  | cons op rest ih =>
    intro b h
    rw [runOps_cons]
    rcases List.mem_cons.mp h with h1 | h2
    · rw [← h1]
      exact runOps_registered_false rest _ rfl
    · exact ih _ h2

theorem runOps_callback (ops : List BinderOp) :
    ∀ b : ClickOutsideBinder, (runOps b ops).callback = lastUpdateCb b.callback ops := by
  induction ops with
  | nil => intro b; rfl
  | cons op rest ih =>
    intro b
    rw [runOps_cons]
    cases op with
    | update c => rw [ih]; rfl
    | destroy => rw [ih]; rfl
    | click t => rw [ih]; rfl

end Mu

open Mu

/-- Claim C2: for a binder created by `clickOutside(element, callback)` and any
later sequence of lifecycle operations not containing `destroy`, a click whose
target is outside the bound region (by DOM containment) invokes the current
callback, and a click whose target is an inclusive descendant of the region
does not invoke it. -/
theorem claim_C2_outside_click (element : DomNode) (cb : ℕ) (ops : List BinderOp)
    (target : DomNode) (hnd : BinderOp.destroy ∉ ops) :
    (nodeContains element target = false →
      dispatchClick (runOps (clickOutside element cb) ops) target
        = some (runOps (clickOutside element cb) ops).callback) ∧
    (nodeContains element target = true →
      dispatchClick (runOps (clickOutside element cb) ops) target = none) := by
  have hreg : (runOps (clickOutside element cb) ops).listenerRegistered = true :=
    runOps_registered_of_no_destroy ops _ hnd
  have helem : (runOps (clickOutside element cb) ops).element = element :=
    runOps_element ops _
  constructor
  · intro hout
    simp [dispatchClick, onClick, hreg, helem, hout]
  · intro hin
    simp [dispatchClick, onClick, hreg, helem, hin]

/-- Witness for claim C2 at a concrete binder: element `[0]`, initial callback
`1`, one callback replacement to `2`; a click at the outside node `[1]` invokes
callback `2`, a click at the descendant `[0, 3]` invokes nothing. -/
theorem claim_C2_witness :
    BinderOp.destroy ∉ [BinderOp.update 2] ∧
    dispatchClick (runOps (clickOutside [0] 1) [BinderOp.update 2]) [1] = some 2 ∧
    dispatchClick (runOps (clickOutside [0] 1) [BinderOp.update 2]) [0, 3] = none := by
  refine ⟨by decide, ?_, ?_⟩
  · have h := (claim_C2_outside_click [0] 1 [BinderOp.update 2] [1] (by decide)).1 (by decide)
    rw [h]
    decide
  · exact (claim_C2_outside_click [0] 1 [BinderOp.update 2] [0, 3] (by decide)).2 (by decide)

/-- Claim C8: once `destroy` has occurred among the binder's lifecycle
operations, no click ever invokes the callback again, and calling `destroy` a
second time is a no-op (total, hence non-throwing) that leaves the state
unchanged. -/
theorem claim_C8_destroyed (element : DomNode) (cb : ℕ) (ops : List BinderOp)
    (target : DomNode) (hd : BinderOp.destroy ∈ ops) :
    dispatchClick (runOps (clickOutside element cb) ops) target = none ∧
    destroy (runOps (clickOutside element cb) ops)
      = runOps (clickOutside element cb) ops := by
  have hreg : (runOps (clickOutside element cb) ops).listenerRegistered = false :=
    runOps_registered_of_destroy ops _ hd
  constructor
  · simp [dispatchClick, hreg]
  · rcases hE : runOps (clickOutside element cb) ops with ⟨e, c, r⟩
    rw [hE] at hreg
    have hr : r = false := hreg
    simp [destroy, hr]

/-- Witness for claim C8: after `destroy`, a click at the outside node `[5]`
invokes nothing, and a second `destroy` leaves the state unchanged. -/
theorem claim_C8_witness :
    BinderOp.destroy ∈ [BinderOp.update 2, BinderOp.destroy] ∧
    dispatchClick (runOps (clickOutside [0] 1) [BinderOp.update 2, BinderOp.destroy]) [5]
      = none ∧
    destroy (runOps (clickOutside [0] 1) [BinderOp.update 2, BinderOp.destroy])
      = runOps (clickOutside [0] 1) [BinderOp.update 2, BinderOp.destroy] := by
  refine ⟨by decide, ?_, ?_⟩
  · exact (claim_C8_destroyed [0] 1 [BinderOp.update 2, BinderOp.destroy] [5] (by decide)).1
  · exact (claim_C8_destroyed [0] 1 [BinderOp.update 2, BinderOp.destroy] [5] (by decide)).2

/-- Claim C9: `update` replaces only the callback reference (the listener
registration and bound element are untouched); the binder's current callback is
always the one set by the newest `update` (or the initial one), every invoked
callback is that newest one — never a previously replaced one — and before
disposal an outside click does invoke exactly it. -/
theorem claim_C9_update (element : DomNode) (cb : ℕ) (ops : List BinderOp)
    (newCb : ℕ) (target : DomNode) :
    update (runOps (clickOutside element cb) ops) newCb
        = { runOps (clickOutside element cb) ops with callback := newCb } ∧
    (update (runOps (clickOutside element cb) ops) newCb).listenerRegistered
        = (runOps (clickOutside element cb) ops).listenerRegistered ∧
    (runOps (clickOutside element cb) ops).callback = lastUpdateCb cb ops ∧
    (∀ c, dispatchClick (runOps (clickOutside element cb) ops) target = some c →
        c = lastUpdateCb cb ops) ∧
    (BinderOp.destroy ∉ ops → nodeContains element target = false →
        dispatchClick (runOps (clickOutside element cb) ops) target
          = some (lastUpdateCb cb ops)) := by
  refine ⟨rfl, rfl, runOps_callback ops _, ?_, ?_⟩
  · intro c hc
    simp only [dispatchClick, onClick] at hc
    split at hc
    · split at hc
      · cases hc
      · injection hc with h
        rw [← h]
        exact runOps_callback ops _
    · cases hc
  · intro hnd hout
    have hreg : (runOps (clickOutside element cb) ops).listenerRegistered = true :=
      runOps_registered_of_no_destroy ops _ hnd
    have helem : (runOps (clickOutside element cb) ops).element = element :=
      runOps_element ops _
    have hcb : (runOps (clickOutside element cb) ops).callback = lastUpdateCb cb ops :=
      runOps_callback ops _
    simp [dispatchClick, onClick, hreg, helem, hout, hcb]

/-- Witness for claim C9: after two replacements (`2`, then `3`), an outside
click at `[9]` invokes `3`, the newest callback. -/
theorem claim_C9_witness :
    BinderOp.destroy ∉ [BinderOp.update 2, BinderOp.update 3] ∧
    nodeContains [0] [9] = false ∧
    dispatchClick (runOps (clickOutside [0] 1) [BinderOp.update 2, BinderOp.update 3]) [9]
      = some 3 := by
  refine ⟨by decide, by decide, ?_⟩
  have h := (claim_C9_update [0] 1 [BinderOp.update 2, BinderOp.update 3] 7 [9]).2.2.2.2
      (by decide) (by decide)
  rw [h]
  decide

/-- Claim C10: a click whose target is the bound element itself never invokes
the callback, because DOM containment is inclusive: a node contains itself. -/
theorem claim_C10_self_click (element : DomNode) (cb : ℕ) (ops : List BinderOp) :
    nodeContains element element = true ∧
    dispatchClick (runOps (clickOutside element cb) ops) element = none := by
  refine ⟨nodeContains_self element, ?_⟩
  have helem : (runOps (clickOutside element cb) ops).element = element :=
    runOps_element ops _
  simp [dispatchClick, onClick, helem, nodeContains_self, ite_self]

/-- Claim C1: `isElementVisible` is the conjunction of exactly five predicates
on the element's snapshot — non-null `offsetParent`, positive rendered width
and height, computed `display` not `"none"`, computed `visibility` not
`"hidden"` together with computed `opacity` not the string `"0"`, and the
bounding rectangle lying entirely inside
`[0, viewportHeight] × [0, viewportWidth]` (so any partial overlap with the
viewport boundary yields `false`) — and it returns `false` immediately when no
element is supplied. -/
theorem claim_C1_five_predicates (w : WindowEnv) (el : HTMLElementModel) :
    isElementVisible w none = false ∧
    (isElementVisible w (some el) = true ↔
      (el.offsetParent.isSome = true ∧
       (el.rect.width > 0 ∧ el.rect.height > 0) ∧
       el.style.display ≠ "none" ∧
       (el.style.visibility ≠ "hidden" ∧ el.style.opacity ≠ "0") ∧
       (el.rect.top ≥ 0 ∧ el.rect.left ≥ 0 ∧
        el.rect.bottom ≤ viewportHeight w ∧ el.rect.right ≤ viewportWidth w))) := by
  refine ⟨rfl, ?_⟩
  simp only [isElementVisible, Bool.and_eq_true, decide_eq_true_eq, bne_iff_ne]
  tauto

/-- Claim C7: the opacity check is a string comparison against `"0"`, not a
numeric one: an element whose computed opacity is the string `"0.0"` passes the
visibility-style predicate, and if it satisfies the other four predicates it is
reported visible. -/
theorem claim_C7_opacity_string_compare (w : WindowEnv) (el : HTMLElementModel)
    (hop : el.style.opacity = "0.0")
    (h1 : el.offsetParent.isSome = true)
    (h2 : el.rect.width > 0) (h3 : el.rect.height > 0)
    (h4 : el.style.display ≠ "none")
    (h5 : el.style.visibility ≠ "hidden")
    (h6 : el.rect.top ≥ 0) (h7 : el.rect.left ≥ 0)
    (h8 : el.rect.bottom ≤ viewportHeight w) (h9 : el.rect.right ≤ viewportWidth w) :
    isElementVisible w (some el) = true := by
  simp only [isElementVisible, Bool.and_eq_true, decide_eq_true_eq, bne_iff_ne, hop]
  have hne : ("0.0" : String) ≠ "0" := by decide
  tauto

/-- Witness for claim C7: a 10×10 element at the top-left of a 100×100
viewport, displayed, visible, attached, with computed opacity `"0.0"`, is
reported visible. -/
theorem claim_C7_witness :
    (⟨"block", "visible", "0.0"⟩ : ElementStyle).opacity = "0.0" ∧
    isElementVisible ⟨100, 100, 0, 0⟩
      (some ⟨some 0, ⟨0, 0, 10, 10, 10, 10⟩, ⟨"block", "visible", "0.0"⟩⟩) = true :=
  ⟨rfl,
    claim_C7_opacity_string_compare ⟨100, 100, 0, 0⟩
      ⟨some 0, ⟨0, 0, 10, 10, 10, 10⟩, ⟨"block", "visible", "0.0"⟩⟩
      rfl rfl (by decide) (by decide) (by decide) (by decide)
      (by decide) (by decide) (by decide) (by decide)⟩

namespace Mu

theorem civilArithBound (z era : ℤ) (doe yoe doy mp m : ℕ)
    (hz1 : 719468 ≤ z) (hz2 : z ≤ 3652364)
    (hera : era = z / 146097)
    (hdoe : (doe : ℤ) = z % 146097)
    (hyoe : yoe = (doe - doe / 1460 + doe / 36524 - doe / 146096) / 365)
    (hdoy : doy = doe - (365 * yoe + yoe / 4 - yoe / 100))
    (hmp : mp = (5 * doy + 2) / 153)
    (hm : m = if mp < 10 then mp + 3 else mp - 9) :
    0 ≤ (yoe : ℤ) + era * 400 + (if m ≤ 2 then 1 else 0) ∧
    (yoe : ℤ) + era * 400 + (if m ≤ 2 then 1 else 0) ≤ 9999 := by
  subst hm
  split_ifs <;> omega

theorem civilDoe_le (z0 : ℤ) : civilDoe z0 ≤ 146096 := by
  simp only [civilDoe]
  omega

theorem civilDoy_le (doe : ℕ) (h : doe ≤ 146096) : civilDoy doe ≤ 366 := by
  simp only [civilDoy, civilYoe]
  omega

theorem civilMp_le (doe : ℕ) (h : doe ≤ 146096) : civilMp doe ≤ 11 := by
  have hdoy := civilDoy_le doe h
  simp only [civilMp]
  omega

theorem civilM_lt (doe : ℕ) (h : doe ≤ 146096) : civilM doe < 100 := by
  have hmp := civilMp_le doe h
  simp only [civilM]
  split_ifs <;> omega

theorem civilD_lt (doe : ℕ) : civilD doe < 100 := by
  simp only [civilD, civilMp]
  omega

theorem civilY_bounds (n : ℕ) (h : n ≤ 2932896) :
    0 ≤ civilY (n : ℤ) ∧ civilY (n : ℤ) ≤ 9999 := by
  have hdoe : ((civilDoe (n : ℤ)) : ℤ) = ((n : ℤ) + 719468) % 146097 := by
    simp only [civilDoe]
    omega
  exact civilArithBound ((n : ℤ) + 719468) (civilEra (n : ℤ)) (civilDoe (n : ℤ))
    (civilYoe (civilDoe (n : ℤ))) (civilDoy (civilDoe (n : ℤ)))
    (civilMp (civilDoe (n : ℤ))) (civilM (civilDoe (n : ℤ)))
    (by omega) (by omega) rfl hdoe rfl rfl rfl rfl

theorem civilFromDays_bounds (n : ℕ) (h : n ≤ 2932896) :
    0 ≤ (civilFromDays (n : ℤ)).1 ∧ (civilFromDays (n : ℤ)).1 ≤ 9999 ∧
    (civilFromDays (n : ℤ)).2.1 < 100 ∧ (civilFromDays (n : ℤ)).2.2 < 100 := by
  obtain ⟨h1, h2⟩ := civilY_bounds n h
  exact ⟨h1, h2, civilM_lt _ (civilDoe_le _), civilD_lt _⟩

theorem decDigitsAux_length_le : ∀ (fuel n k : ℕ), n < 10 ^ k → 0 < k → k ≤ fuel →
    (decDigitsAux fuel n).length ≤ k := by
  intro fuel
  induction fuel with
  | zero => intro n k _ hk hle; omega
  | succ f ih =>
    intro n k hn hk hle
    rw [decDigitsAux]
    split
    · simp
      omega
    · rcases k with - | k2
      · omega
      · have hk2 : 0 < k2 := by
          rcases Nat.eq_zero_or_pos k2 with h0 | h0
          · subst h0
            simp at hn
            omega
          · exact h0
        have hdiv : n / 10 < 10 ^ k2 := by
          rw [Nat.div_lt_iff_lt_mul (by norm_num)]
          calc n < 10 ^ (k2 + 1) := hn
          _ = 10 ^ k2 * 10 := by ring
        have := ih (n / 10) k2 hdiv hk2 (by omega)
        simp [List.length_append]
        omega

theorem padZeros_length (w : ℕ) (l : List Char) (h : l.length ≤ w) :
    (padZeros w l).length = w := by
  simp [padZeros]
  omega

theorem pad2_length (n : ℕ) (h : n < 100) : (pad2 n).length = 2 :=
  padZeros_length 2 _
    (decDigitsAux_length_le 24 n 2 (h.trans_le (by norm_num)) (by omega) (by omega))

theorem yearChars_length (y : ℤ) (h0 : 0 ≤ y) (h1 : y ≤ 9999) :
    (yearChars y).length = 4 := by
  rw [yearChars, if_pos ⟨h0, h1⟩]
  refine padZeros_length 4 _ (decDigitsAux_length_le 24 y.toNat 4 ?_ (by omega) (by omega))
  calc y.toNat < 10000 := by omega
  _ ≤ 10 ^ 4 := by norm_num

end Mu

namespace Mu

theorem natCast_mul1000 (s : ℕ) : (s : ℚ) * 1000 = ((1000 * s : ℕ) : ℚ) := by
  push_cast
  ring

theorem jsTrunc_natCast (m : ℕ) : jsTrunc ((m : ℕ) : ℚ) = (m : ℤ) := by
  rw [jsTrunc, Rat.num_natCast, Rat.den_natCast]
  simp [Int.tdiv]

theorem ge3600_natCast (s : ℕ) :
    JSNum.ge3600 (JSNum.finite (s : ℚ)) = decide (3600 ≤ s) := by
  simp only [JSNum.ge3600, decide_eq_decide]
  rw [show (60 * 60 : ℚ) = ((3600 : ℕ) : ℚ) by norm_num]
  exact Nat.cast_le

theorem timeValue_natCast (s : ℕ) (h : s ≤ 8640000000000) :
    timeValue (JSNum.mul1000 (JSNum.finite (s : ℚ))) = some ((1000 * s : ℕ) : ℤ) := by
  have hcond : -8640000000000000 ≤ ((1000 * s : ℕ) : ℚ) ∧
      ((1000 * s : ℕ) : ℚ) ≤ 8640000000000000 := by
    constructor
    · exact le_trans (by norm_num) (Nat.cast_nonneg _)
    · exact_mod_cast (by omega : 1000 * s ≤ 8640000000000000)
  simp only [JSNum.mul1000, timeValue, natCast_mul1000]
  rw [if_pos hcond, jsTrunc_natCast]

theorem formatTime_natCast (s : ℕ) (h : s ≤ 8640000000000) :
    formatTime (JSNum.finite (s : ℚ)) =
      if 3600 ≤ s then
        some (jsSubstringStr (String.mk (isoChars ((1000 * s : ℕ) : ℤ))) 11 16)
      else
        some (jsSubstringStr (String.mk (isoChars ((1000 * s : ℕ) : ℤ))) 14 19) := by
  rw [formatTime, ge3600_natCast, timeValue_natCast s h]
  have hnan : JSNum.isNaNb (JSNum.finite (s : ℚ)) = false := rfl
  rw [hnan]
  by_cases h36 : 3600 ≤ s
  · simp [h36, toISOStringJS]
  · simp [h36, toISOStringJS]

end Mu

namespace Mu

theorem substringChars_extract (p mid rest : List Char) (a b : ℕ)
    (hp : p.length = a) (hm : mid.length = b - a) :
    substringChars (p ++ (mid ++ rest)) a b = mid := by
  rw [substringChars, List.drop_left' hp, ← hm, List.take_left]

theorem isoShape_hhmm (l1 l2 l3 l4 l5 l6 l7 : List Char) :
    l1 ++ '-' :: l2 ++ '-' :: l3 ++ 'T' :: l4 ++ ':' :: l5 ++ ':' :: l6 ++ '.' :: l7 ++ ['Z']
      = (l1 ++ '-' :: l2 ++ '-' :: l3 ++ ['T']) ++
        ((l4 ++ ':' :: l5) ++ (':' :: l6 ++ '.' :: l7 ++ ['Z'])) := by
  simp

theorem isoShape_mmss (l1 l2 l3 l4 l5 l6 l7 : List Char) :
    l1 ++ '-' :: l2 ++ '-' :: l3 ++ 'T' :: l4 ++ ':' :: l5 ++ ':' :: l6 ++ '.' :: l7 ++ ['Z']
      = (l1 ++ '-' :: l2 ++ '-' :: l3 ++ 'T' :: l4 ++ [':']) ++
        ((l5 ++ ':' :: l6) ++ ('.' :: l7 ++ ['Z'])) := by
  simp

end Mu

/-- Claim C3: for every whole-seconds value `s` with `0 ≤ s < 3600`,
`formatTime(s)` returns the string `MM:SS` where `MM = s / 60` and
`SS = s % 60`, each zero-padded to two digits. -/
theorem claim_C3_mmss (s : ℕ) (h : s < 3600) :
    formatTime (JSNum.finite (s : ℚ)) =
      some (String.mk (pad2 (s / 60) ++ ':' :: pad2 (s % 60))) := by
  rw [formatTime_natCast s (by omega), if_neg (by omega)]
  congr 1
  rw [jsSubstringStr]
  congr 1
  show substringChars (isoChars ((1000 * s : ℕ) : ℤ)) 14 19 = _
  have hdays : ((1000 * s : ℕ) : ℤ) / 86400000 = ((0 : ℕ) : ℤ) := by omega
  have hmsod : (((1000 * s : ℕ) : ℤ) % 86400000).toNat = 1000 * s := by omega
  simp only [isoChars, hdays, hmsod]
  have hcivil : civilFromDays ((0 : ℕ) : ℤ) = (1970, 1, 1) := by decide
  rw [hcivil]
  have e1 : 1000 * s / 3600000 = 0 := by omega
  have e2 : 1000 * s / 60000 % 60 = s / 60 := by omega
  have e3 : 1000 * s / 1000 % 60 = s % 60 := by omega
  have e4 : 1000 * s % 1000 = 0 := by omega
  simp only [e1, e2, e3, e4]
  rw [isoShape_mmss]
  apply substringChars_extract
  · simp [yearChars_length 1970 (by norm_num) (by norm_num), pad2_length 1 (by norm_num),
      pad2_length 0 (by norm_num)]
  · simp [pad2_length (s / 60) (by omega), pad2_length (s % 60) (by omega)]

/-- Witness for claim C3: `formatTime(75) = "01:15"`. -/
theorem claim_C3_witness :
    75 < 3600 ∧ formatTime (JSNum.finite ((75 : ℕ) : ℚ)) = some "01:15" :=
  ⟨by decide, (claim_C3_mmss 75 (by decide)).trans (by decide)⟩

/-- Counterexample to claim C4 as stated: at `s = 253402300800` seconds
(the UTC instant 10000-01-01T00:00, where `toISOString` switches to the
expanded six-digit year format, shifting the character positions),
`formatTime` returns `"01T00"` — not `"00:00"`, the zero-padded HH:MM of
the UTC clock reading at that instant, and not a string in HH:MM form at
all. -/
theorem claim_C4_counterexample :
    formatTime (JSNum.finite ((253402300800 : ℕ) : ℚ)) ≠ some "00:00" ∧
    formatTime (JSNum.finite ((253402300800 : ℕ) : ℚ)) = some "01T00" := by
  have hval : formatTime (JSNum.finite ((253402300800 : ℕ) : ℚ)) = some "01T00" := by
    rw [formatTime_natCast 253402300800 (by norm_num), if_pos (by norm_num)]
    decide
  constructor
  · rw [hval]
    decide
  · exact hval

/-- Claim C4 as amended: for every whole-seconds value `s` with
`3600 ≤ s < 253402300800` — i.e. while the UTC date still has a four-digit
year — `formatTime(s)` returns the zero-padded `HH:MM` of the UTC clock
reading at epoch + `s` seconds (`HH = s / 3600 % 24`, `MM = s / 60 % 60`).
Beyond that bound the claim fails: years ≥ 10000 use the expanded ISO year
format so the substring is no longer HH:MM, and past ±8.64e12 seconds
`toISOString` throws. -/
theorem claim_C4_hhmm_amended (s : ℕ) (h36 : 3600 ≤ s) (hlt : s < 253402300800) :
    formatTime (JSNum.finite (s : ℚ)) =
      some (String.mk (pad2 (s / 3600 % 24) ++ ':' :: pad2 (s / 60 % 60))) := by
  rw [formatTime_natCast s (by omega), if_pos h36]
  congr 1
  rw [jsSubstringStr]
  congr 1
  show substringChars (isoChars ((1000 * s : ℕ) : ℤ)) 11 16 = _
  have hdays : ((1000 * s : ℕ) : ℤ) / 86400000 = ((s / 86400 : ℕ) : ℤ) := by omega
  have hmsod : (((1000 * s : ℕ) : ℤ) % 86400000).toNat = 1000 * (s % 86400) := by omega
  simp only [isoChars, hdays, hmsod]
  obtain ⟨hy0, hy1, hm, hd⟩ := civilFromDays_bounds (s / 86400) (by omega)
  have e1 : 1000 * (s % 86400) / 3600000 = s / 3600 % 24 := by omega
  have e2 : 1000 * (s % 86400) / 60000 % 60 = s / 60 % 60 := by omega
  simp only [e1, e2]
  rcases hc : civilFromDays ((s / 86400 : ℕ) : ℤ) with ⟨y, m, d⟩
  rw [hc] at hy0 hy1 hm hd
  dsimp only at hy0 hy1 hm hd ⊢
  rw [isoShape_hhmm]
  apply substringChars_extract
  · simp [yearChars_length y hy0 hy1, pad2_length m hm, pad2_length d hd]
  · simp [pad2_length (s / 3600 % 24) (by omega), pad2_length (s / 60 % 60) (by omega)]

/-- Witness for claim C4 (amended): `formatTime(3661) = "01:01"`. -/
theorem claim_C4_witness :
    3600 ≤ 3661 ∧ 3661 < 253402300800 ∧
    formatTime (JSNum.finite ((3661 : ℕ) : ℚ)) = some "01:01" :=
  ⟨by decide, by decide, (claim_C4_hhmm_amended 3661 (by decide) (by decide)).trans (by decide)⟩

/-- Counterexample to claim C5 as stated: `formatTime` is not total on all
numbers — at the finite input `10^13` seconds the millisecond value `10^16`
exceeds `Date`'s ±8.64e15 range, the date is invalid, and `toISOString`
throws a `RangeError` (modelled as `none`): no string is returned. -/
theorem claim_C5_counterexample :
    formatTime (JSNum.finite 10000000000000) = none := by
  have hge : JSNum.ge3600 (JSNum.finite 10000000000000) = true := by
    rw [JSNum.ge3600, decide_eq_true_eq]
    norm_num
  have hcond : ¬(-8640000000000000 ≤ (10000000000000 : ℚ) * 1000 ∧
      (10000000000000 : ℚ) * 1000 ≤ 8640000000000000) := by
    rintro ⟨-, hc⟩
    norm_num at hc
  rw [formatTime]
  have hnan : JSNum.isNaNb (JSNum.finite 10000000000000) = false := rfl
  rw [hnan, hge]
  simp only [JSNum.mul1000, timeValue, if_neg hcond, toISOStringJS]
  rfl

/-- Claim C5 as amended: `formatTime` is pure, and it is total — returning
a string without throwing — on the NaN sentinel (which yields `"--:--"`)
and on every finite input within `Date`'s representable range
`|s| ≤ 8.64e12` seconds; infinite or out-of-range inputs make
`toISOString` throw. -/
theorem claim_C5_total_in_range :
    formatTime JSNum.nan = some "--:--" ∧
    (∀ q : ℚ, -8640000000000 ≤ q → q ≤ 8640000000000 →
      (formatTime (JSNum.finite q)).isSome = true) := by
  refine ⟨rfl, ?_⟩
  intro q h1 h2
  have hcond : -8640000000000000 ≤ q * 1000 ∧ q * 1000 ≤ 8640000000000000 := by
    constructor <;> linarith
  rw [formatTime]
  have hnan : JSNum.isNaNb (JSNum.finite q) = false := rfl
  rw [hnan]
  simp only [JSNum.mul1000, timeValue, if_pos hcond, toISOStringJS]
  split
  · simp
  · split <;> simp

/-- Witness for claim C5 (amended): the in-range input `75` yields a
string. -/
theorem claim_C5_witness :
    (-8640000000000 : ℚ) ≤ 75 ∧ (75 : ℚ) ≤ 8640000000000 ∧
    (formatTime (JSNum.finite 75)).isSome = true :=
  ⟨by norm_num, by norm_num,
    claim_C5_total_in_range.2 75 (by norm_num) (by norm_num)⟩

/-- Claim C6: on the NaN input (JavaScript's only invalid-number value),
`formatTime` returns exactly the literal string `"--:--"`. -/
theorem claim_C6_nan_sentinel : formatTime JSNum.nan = some "--:--" := rfl
